import Mathlib

/-!
Shallow embedding of `src/main.py` (AmazonScraper).

Modelling conventions:
* HTML/DOM querying is external: a fetched page is modelled as a `Doc` that
  records, for each CSS-selector chain the code queries, the list of text
  results (`none` = selector matched no element; `some t` = the stripped text
  of the matched element, resp. the raw `href` attribute for link selectors).
* The network, the random number generator, `time.time()` and the proxy
  capability are oracles bundled in `Env`; the code consumes them at explicit
  indices carried in the state (`totalRequests` for HTTP responses, `drawIdx`
  for per-rotation draws).
* Python floats are modelled as `ℚ` (the parsed texts are short decimal
  literals, exactly representable); Python's dynamically typed `price` /
  `rating` / `review_count` fields are `Option PVal` where `PVal.text` is the
  raw-text fallback the code assigns when numeric conversion raises.
* Sleeps, logging, `show_ip` diagnostics (`check_current_ip`), memory `del`s
  and the `scraped_at` timestamp, `brand` and `image_url` fields are elided:
  nothing in the verified claims depends on them.
-/

/-! ## Numeric text extraction (regex `[\d,]+\.?\d*` etc. and float()/int()) -/

/-- `text.replace(',', '')`. -/
def stripCommas (l : List Char) : List Char := l.filter (fun c => c != ',')

/-- Numeric value of a digit string, as `int(...)`/the integer part of `float(...)`. -/
def digitsVal (ds : List Char) : ℕ := ds.foldl (fun acc c => 10 * acc + (c.toNat - 48)) 0

/-- Leftmost match of `\d+\.?\d*` (the effect of `[\d,]+\.?\d*` on comma-stripped
text, and of `(\d+\.?\d*)`): scan to the first digit, take the digit run, an
optional dot, and the following digit run. -/
def numSearch : List Char → Option (List Char)
  | [] => none
  | c :: cs =>
    if c.isDigit then
      let ip := List.takeWhile Char.isDigit (c :: cs)
      let rest := List.dropWhile Char.isDigit (c :: cs)
      some (if rest.head? = some '.' then
              ip ++ '.' :: List.takeWhile Char.isDigit (rest.drop 1)
            else ip)
    else numSearch cs

/-- Leftmost match of `[\d,]+` on comma-stripped text: the first digit run. -/
def intSearch : List Char → Option (List Char)
  | [] => none
  | c :: cs =>
    if c.isDigit then some (List.takeWhile Char.isDigit (c :: cs)) else intSearch cs

/-- `float(...)` restricted to the shapes the matches can take: digits,
optionally a single dot and more digits, at least one digit overall.
Returns `none` where Python's `float` would raise `ValueError`. -/
def parseFloat (m : List Char) : Option ℚ :=
  let ip := m.takeWhile Char.isDigit
  let rest := m.dropWhile Char.isDigit
  if rest.isEmpty then
    if ip.isEmpty then none else some ((digitsVal ip : ℚ))
  else if rest.head? = some '.' && (rest.drop 1).all Char.isDigit then
    let fp := rest.drop 1
    if ip.isEmpty && fp.isEmpty then none
    else some ((digitsVal ip : ℚ) + (digitsVal fp : ℚ) / (10 : ℚ) ^ fp.length)
  else none

/-- `int(...)` on a candidate digit string; `none` where Python raises. -/
def parseInt (m : List Char) : Option ℕ :=
  if m.isEmpty || !m.all Char.isDigit then none else some (digitsVal m)

/-- A dynamically typed numeric field value: the parsed number, or the raw
text the code falls back to when the numeric conversion raises. -/
inductive PVal where
  | num (q : ℚ)
  | text (s : String)
deriving DecidableEq

/-- The price branch body (`main.py:249-257`): regex over the comma-stripped
text; on a match, `float(...)` with raw-text fallback; `none` = no match
(the selector loop continues without `break`). -/
def parsePriceText (txt : String) : Option PVal :=
  match numSearch (stripCommas txt.data) with
  | none => none
  | some m =>
    match parseFloat m with
    | some q => some (PVal.num q)
    | none => some (PVal.text txt)

/-- The rating branch body (`main.py:270-277`): regex `(\d+\.?\d*)` over the
raw text; `float(...)` with raw-text fallback. -/
def parseRatingText (txt : String) : Option PVal :=
  match numSearch txt.data with
  | none => none
  | some m =>
    match parseFloat m with
    | some q => some (PVal.num q)
    | none => some (PVal.text txt)

/-- The review-count branch body (`main.py:290-297`): regex `([\d,]+)` over
the comma-stripped text; `int(...)` with raw-text fallback. -/
def parseReviewText (txt : String) : Option PVal :=
  match intSearch (stripCommas txt.data) with
  | none => none
  | some m =>
    match parseInt m with
    | some n => some (PVal.num (n : ℚ))
    | none => some (PVal.text txt)

/-- The `for selector ... else` fallback chain for numeric fields: the first
candidate element whose text yields a regex match wins (`break`); a present
element without a match does NOT break; exhaustion yields `None`. -/
def scanNumeric (parse : String → Option PVal) : List (Option String) → Option PVal
  | [] => none
  | none :: rest => scanNumeric parse rest
  | some txt :: rest =>
    match parse txt with
    | some v => some v
    | none => scanNumeric parse rest

/-- The `for selector ... else` fallback chain for plain text fields
(title, availability): the first present element wins. -/
def firstPresent : List (Option String) → Option String
  | [] => none
  | none :: rest => firstPresent rest
  | some t :: _ => some t

/-! ## Documents and link / ASIN extraction -/

/-- A parsed page, abstracting the DOM to the text results of the selector
chains the code queries. `linkHrefs` flattens the elements of the four
product-link selectors in document order (`none` = element without `href`). -/
structure Doc where
  titleCands : List (Option String) := []
  priceCands : List (Option String) := []
  ratingCands : List (Option String) := []
  reviewCands : List (Option String) := []
  availCands : List (Option String) := []
  linkHrefs : List (Option String) := []
  nextCands : List (Option String) := []
deriving DecidableEq

/-- The character class `[A-Z0-9]`. -/
def isAsinChar (c : Char) : Bool := (decide ('A' ≤ c) && decide (c ≤ 'Z')) || c.isDigit

/-- Try the pattern `/dp/([A-Z0-9]{10})` anchored at the head of the list. -/
def asinAt : List Char → Option (List Char)
  | '/' :: 'd' :: 'p' :: '/' :: rest =>
    let cand := rest.take 10
    if decide (cand.length = 10) && cand.all isAsinChar then some cand else none
  | _ => none

/-- `re.search`: leftmost position where the ASIN pattern matches. -/
def asinSearch : List Char → Option (List Char)
  | [] => none
  | c :: rest =>
    match asinAt (c :: rest) with
    | some r => some r
    | none => asinSearch rest

/-- `extract_asin` (`main.py:214-217`). -/
def extract_asin (url : String) : Option String :=
  (asinSearch url.data).map (fun cs => String.mk cs)

/-- Substring test `'/dp/' in href`. -/
def hasDp : List Char → Bool
  | '/' :: 'd' :: 'p' :: '/' :: _ => true
  | _ :: rest => hasDp rest
  | [] => false

def amazonBase : String := "https://www.amazon.com"

/-- `str.startswith(p)`, on the character lists. -/
def strStarts (s p : String) : Bool := List.isPrefixOf p.data s.data

/-- `urljoin('https://www.amazon.com', href)`, restricted to the resolution
cases that arise for product/pagination hrefs (absolute URLs, scheme-relative
`//`, absolute paths `/...`, and bare relative paths). -/
def urljoinAmazon (href : String) : String :=
  if strStarts href ("http://") || strStarts href ("https://") then href
  else if strStarts href ("//") then String.append ("https:") href
  else if strStarts href ("/") then amazonBase ++ href
  else amazonBase ++ ("/") ++ href

/-- `full_url.split('?')[0]`. -/
def stripQuery (s : String) : String := String.mk (s.data.takeWhile (fun c => c != '?'))

/-- One iteration of the link-collection loop (`main.py:202-210`): keep an
element's `href` if truthy and containing `/dp/`, absolutise, strip the
query, and append if not already collected. -/
def addLink (links : List String) (h : Option String) : List String :=
  match h with
  | none => links
  | some href =>
    if href = "" then links
    else if hasDp href.data then
      let clean := stripQuery (urljoinAmazon href)
      if clean ∈ links then links else links ++ [clean]
    else links

/-- `extract_product_links` (`main.py:188-212`). -/
def extract_product_links (doc : Doc) : List String :=
  doc.linkHrefs.foldl addLink []

/-- The selector loop of `get_next_page_url`: first present element with a
truthy `href`, absolutised. -/
def nextFromCands : List (Option String) → Option String
  | [] => none
  | none :: rest => nextFromCands rest
  | some h :: rest => if h = "" then nextFromCands rest else some (urljoinAmazon h)

/-- `get_next_page_url` (`main.py:355-368`). -/
def get_next_page_url (doc : Doc) : Option String :=
  nextFromCands doc.nextCands

/-! ## Product records and the price filter -/

/-- One scraped item (`product` dict in `extract_product_data`); `scraped_at`,
`brand` and `image_url` are elided as claim-irrelevant. -/
structure Product where
  url : String
  asin : Option String
  title : Option String
  price : Option PVal
  rating : Option PVal
  review_count : Option PVal
  availability : Option String
deriving DecidableEq

/-- Python truthiness of `product['price']` (`None`, `0` and `""` are falsy). -/
def pyTruthyPrice : Option PVal → Bool
  | none => false
  | some (PVal.num q) => decide (q ≠ 0)
  | some (PVal.text s) => decide (s ≠ "")

/-- `isinstance(product['price'], (int, float))`. -/
def isNumericPrice : Option PVal → Bool
  | some (PVal.num _) => true
  | _ => false

/-- The comparison `product['price'] > 100`, evaluated only under the guard. -/
def priceGt100 : Option PVal → Bool
  | some (PVal.num q) => decide (100 < q)
  | _ => false

/-- The price filter (`main.py:344-347`): drop iff the price is truthy,
numeric and greater than 100. -/
def priceFilterDrops (p : Option PVal) : Bool :=
  pyTruthyPrice p && isNumericPrice p && priceGt100 p

/-- The record-building part of `extract_product_data` (`main.py:222-342`). -/
def extract_record (doc : Doc) (url : String) : Product :=
  { url := url
    asin := extract_asin url
    title := firstPresent doc.titleCands
    price := scanNumeric parsePriceText doc.priceCands
    rating := scanNumeric parseRatingText doc.ratingCands
    review_count := scanNumeric parseReviewText doc.reviewCands
    availability := firstPresent doc.availCands }

/-- `extract_product_data` (`main.py:219-353`): build the record, then return
`None` if the price filter drops it. -/
def extract_product_data (doc : Doc) (url : String) : Option Product :=
  let product := extract_record doc url
  if priceFilterDrops product.price then none else some product

/-! ## Sessions, fetch, rotation -/

/-- A session id, by its format: `session_{t}` at construction,
`session_{t}_{c}` on scheduled rotation, `emergency_session_{t}_{c}` on
emergency rotation. -/
inductive SessId where
  | start (t : ℕ)
  | rotated (t : ℕ) (c : ℕ)
  | emergency (t : ℕ) (c : ℕ)
deriving DecidableEq

/-- The `session_count` component embedded in a session id. -/
def idCount : SessId → ℕ
  | SessId.start _ => 0
  | SessId.rotated _ c => c
  | SessId.emergency _ c => c

/-- Outcome of one `self.session.get(...)`: a status code with the (parsed)
body, or a transport-level exception. -/
inductive Resp where
  | status (code : ℕ) (body : Doc)
  | exn
deriving DecidableEq

/-- Scraper configuration (constructor parameters of `AmazonScraper`;
delays/timeout elided as sleep-only). -/
structure Config where
  proxyConfigured : Bool
  sessionRotationEnabled : Bool
  sessionMinRequests : ℕ
  sessionMaxRequests : ℕ

/-- Oracles for the external world: `resp n` is the outcome of the `n`-th
HTTP GET issued; `randInt i lo hi` the `i`-th `random.randint(lo, hi)` draw;
`timeAt i` the `i`-th `int(time.time())` reading; `uaPick i` the `i`-th
`random.choice` draw over the user-agent pool; `proxyUrl` the external
capability `proxy_configuration.new_url(session_id)`. -/
structure Env where
  resp : ℕ → Resp
  randInt : ℕ → ℕ → ℕ → ℕ
  timeAt : ℕ → ℕ
  uaPick : ℕ → ℕ
  proxyUrl : SessId → String

/-- The fixed user-agent pool (`get_random_user_agent`). -/
def userAgents : List String :=
  [ "Mozilla/5.0 (Windows NT 10.0; Win64; x64) AppleWebKit/537.36 (KHTML, like Gecko) Chrome/120.0.0.0 Safari/537.36"
  , "Mozilla/5.0 (Macintosh; Intel Mac OS X 10_15_7) AppleWebKit/537.36 (KHTML, like Gecko) Chrome/120.0.0.0 Safari/537.36"
  , "Mozilla/5.0 (X11; Linux x86_64) AppleWebKit/537.36 (KHTML, like Gecko) Chrome/120.0.0.0 Safari/537.36"
  , "Mozilla/5.0 (Windows NT 10.0; Win64; x64; rv:121.0) Gecko/20100101 Firefox/121.0"
  , "Mozilla/5.0 (Macintosh; Intel Mac OS X 10_15_7) AppleWebKit/605.1.15 (KHTML, like Gecko) Version/17.1 Safari/605.1.15" ]

/-- Scraper session state (the rotation-relevant fields of `AmazonScraper`):
`curRequests` = `current_session_requests`, `rotLimit` =
`session_rotation_limit` (`none` models `float('inf')`), `totalRequests` =
`proxy_stats['total_requests']`, `headerUA` = the `User-Agent` header set once
by `setup_session`, `drawIdx` = randomness consumption index. -/
structure FetchState where
  curRequests : ℕ
  rotLimit : Option ℕ
  sessionId : SessId
  sessionCount : ℕ
  emergencyRotations : ℕ
  totalRequests : ℕ
  drawIdx : ℕ
  headerUA : String
deriving DecidableEq

/-- `current_session_requests >= session_rotation_limit`
(`n >= float('inf')` is false). -/
def geLimit (n : ℕ) : Option ℕ → Bool
  | some limit => decide (limit ≤ n)
  | none => false

/-- `AmazonScraper.__init__` + `setup_session` (`main.py:19-59`). -/
def initFetchState (cfg : Config) (env : Env) : FetchState :=
  { headerUA := List.getD userAgents (env.uaPick 0 % userAgents.length) ""
    curRequests := 0
    rotLimit :=
      if cfg.sessionRotationEnabled then
        some (env.randInt 0 cfg.sessionMinRequests cfg.sessionMaxRequests)
      else none
    sessionId := SessId.start (env.timeAt 0)
    sessionCount := 0
    emergencyRotations := 0
    totalRequests := 0
    drawIdx := 1 }

/-- `rotate_session_if_needed` (`main.py:72-92`). -/
def rotate_session_if_needed (cfg : Config) (env : Env) (st : FetchState) :
    Bool × FetchState :=
  if !cfg.sessionRotationEnabled then (false, st)
  else if geLimit st.curRequests st.rotLimit then
    (true,
      { st with
        sessionCount := st.sessionCount + 1
        sessionId := SessId.rotated (env.timeAt st.drawIdx) (st.sessionCount + 1)
        curRequests := 0
        rotLimit := some (env.randInt st.drawIdx cfg.sessionMinRequests cfg.sessionMaxRequests)
        drawIdx := st.drawIdx + 1 })
  else (false, st)

/-- What one attempt sent: the `User-Agent` header, the session id the proxy
URL was requested for, the proxies dict, and whether a scheduled rotation was
due (`request_count >= rotation_threshold` with rotation enabled) at the
moment the attempt started. -/
structure ReqInfo where
  ua : String
  sid : SessId
  proxy : Option String
  dueAtIssue : Bool
deriving DecidableEq

inductive AttemptRes where
  | success (d : Doc)
  | failed
deriving DecidableEq

/-- One iteration of the retry loop of `make_request` (`main.py:111-184`):
resolve the proxy for the current session id, bump the counters, issue the
GET, and classify the status (200 → parsed body; 503 → emergency rotation
when a proxy is configured and rotation is enabled; anything else → retry). -/
def request_attempt (cfg : Config) (env : Env) (st : FetchState) :
    AttemptRes × FetchState × ReqInfo :=
  let proxy : Option String :=
    if cfg.proxyConfigured then some (env.proxyUrl st.sessionId) else none
  let info : ReqInfo :=
    { ua := st.headerUA
      sid := st.sessionId
      proxy := proxy
      dueAtIssue := cfg.sessionRotationEnabled && geLimit st.curRequests st.rotLimit }
  let st1 : FetchState :=
    { st with totalRequests := st.totalRequests + 1, curRequests := st.curRequests + 1 }
  match env.resp st.totalRequests with
  | Resp.exn => (AttemptRes.failed, st1, info)
  | Resp.status code body =>
    if code = 200 then (AttemptRes.success body, st1, info)
    else if code = 503 then
      if cfg.proxyConfigured && cfg.sessionRotationEnabled then
        (AttemptRes.failed,
          { st1 with
            emergencyRotations := st1.emergencyRotations + 1
            sessionCount := st1.sessionCount + 1
            sessionId := SessId.emergency (env.timeAt st1.drawIdx) (st1.sessionCount + 1)
            curRequests := 0
            rotLimit := some (env.randInt st1.drawIdx cfg.sessionMinRequests cfg.sessionMaxRequests)
            drawIdx := st1.drawIdx + 1 },
          info)
      else (AttemptRes.failed, st1, info)
    else (AttemptRes.failed, st1, info)

/-- The `for attempt in range(retries)` loop of `make_request`, also
collecting the trace of issued attempts. -/
def make_request_loop (cfg : Config) (env : Env) :
    ℕ → FetchState → Option Doc × FetchState × List ReqInfo
  | 0, st => (none, st, [])
  | n + 1, st =>
    match request_attempt cfg env st with
    | (AttemptRes.success d, st1, info) => (some d, st1, [info])
    | (AttemptRes.failed, st1, info) =>
      let r := make_request_loop cfg env n st1
      (r.1, r.2.1, info :: r.2.2)

/-- `make_request` (`main.py:105-186`): consult the rotation controller once,
then run up to `retries` attempts. The `url` reaches the oracle only through
the request counter. -/
def make_request (cfg : Config) (env : Env) (url : String) (retries : ℕ)
    (st : FetchState) : Option Doc × FetchState × List ReqInfo :=
  make_request_loop cfg env retries (rotate_session_if_needed cfg env st).2

/-! ## Crawl loop -/

/-- Crawl-wide mutable state: the session/fetch state, the emitted records
(`self.products`, appended exactly when `Actor.push_data` runs), and the seen
ASINs (`self.processed_asins`). -/
structure CrawlState where
  fetch : FetchState
  products : List Product
  seen : List String
deriving DecidableEq

/-- Result of handling one product link, with flags for whether a product-page
fetch was issued and whether a record was emitted. -/
structure LinkOut where
  cs : CrawlState
  fetched : Bool
  emitted : Bool
deriving DecidableEq

/-- `set.add` on the seen-ASIN set (modelled as a duplicate-free list). -/
def addAsin (a : String) (seen : List String) : List String :=
  if a ∈ seen then seen else a :: seen

/-- The dedupe guard `if asin and asin in self.processed_asins` (`main.py:394-396`). -/
def asinSeen : Option String → List String → Bool
  | none, _ => false
  | some a, seen => decide (a ≠ "") && decide (a ∈ seen)

/-- `if asin: self.processed_asins.add(asin)` (`main.py:409-410`). -/
def recordAsin : Option String → List String → List String
  | none, seen => seen
  | some a, seen => if a = "" then seen else addAsin a seen

/-- The body of the per-link loop of `scrape_search_results`
(`main.py:394-418`): skip an already-seen ASIN without fetching; otherwise
fetch the product page, extract, and on success append the record, record the
ASIN and push to the sink. -/
def link_step (cfg : Config) (env : Env) (link : String) (cs : CrawlState) : LinkOut :=
  let asin := extract_asin link
  if asinSeen asin cs.seen then { cs := cs, fetched := false, emitted := false }
  else
    let r := make_request cfg env link 3 cs.fetch
    let cs1 : CrawlState := { cs with fetch := r.2.1 }
    match r.1 with
    | none => { cs := cs1, fetched := true, emitted := false }
    | some d =>
      match extract_product_data d link with
      | none => { cs := cs1, fetched := true, emitted := false }
      | some p =>
        { cs :=
            { cs1 with
              products := cs1.products ++ [p]
              seen := recordAsin asin cs1.seen }
          fetched := true
          emitted := true }

/-- The `for link in product_links` loop, with the `break` once
`len(self.products) >= max_products` (`main.py:390-392`). -/
def process_links (cfg : Config) (env : Env) (maxP : ℕ) :
    List String → CrawlState → CrawlState
  | [], cs => cs
  | l :: ls, cs =>
    if maxP ≤ cs.products.length then cs
    else process_links cfg env maxP ls (link_step cfg env l cs).cs

/-- `scrape_search_results` (`main.py:370-434`): the
`while current_url and len(self.products) < max_products` page loop, with
fuel bounding the number of page iterations. A search-page fetch failure
breaks the loop. -/
def scrape_search_results (cfg : Config) (env : Env) (maxP : ℕ) :
    ℕ → Option String → CrawlState → CrawlState
  | 0, _, cs => cs
  | _ + 1, none, cs => cs
  | fuel + 1, some url, cs =>
    if cs.products.length < maxP then
      match make_request cfg env url 3 cs.fetch with
      | (none, st2, _) => { cs with fetch := st2 }
      | (some doc, st2, _) =>
        let cs1 := process_links cfg env maxP (extract_product_links doc) { cs with fetch := st2 }
        scrape_search_results cfg env maxP fuel (get_next_page_url doc) cs1
    else cs

/-- The crawl state at the start of a run. -/
def initCrawlState (cfg : Config) (env : Env) : CrawlState :=
  { fetch := initFetchState cfg env, products := [], seen := [] }

/-- An emitted record's price is absent or a number at most 100 (the invariant
the price filter is meant to establish). -/
def priceOK (p : Product) : Prop :=
  p.price = none ∨ ∃ q : ℚ, p.price = some (PVal.num q) ∧ q ≤ 100

/-- No two records in a list share a non-empty ASIN. -/
def asinDistinct (p q : Product) : Prop :=
  ∀ a : String, a ≠ "" → p.asin = some a → q.asin ≠ some a

/-- The invariant behind the dedupe guarantee: every emitted record's
non-empty ASIN has been recorded, and no two emitted records share one. -/
def GoodCS (cs : CrawlState) : Prop :=
  (∀ p ∈ cs.products, ∀ a : String, a ≠ "" → p.asin = some a → a ∈ cs.seen) ∧
  cs.products.Pairwise asinDistinct

/-- C6's claim, formalized: if the Rotation Controller were consulted before
every individual attempt (and rotations draw positive thresholds), then no
request would ever be issued in a state where a scheduled rotation is due. -/
def rotationConsultedBeforeEveryAttempt : Prop :=
  ∀ (cfg : Config) (env : Env) (url : String) (n : ℕ) (st : FetchState),
    cfg.sessionRotationEnabled = true →
    (∀ i lo hi, 0 < env.randInt i lo hi) →
    (∀ L, st.rotLimit = some L → 0 < L) →
    ∀ info ∈ (make_request cfg env url n st).2.2, info.dueAtIssue = false

/-- C7's user-agent half, formalized: the `k`-th attempt of a fetch call sends
a user agent freshly drawn from the pool for that attempt (draw `k + 1` of the
user-agent stream; draw `0` was consumed by `setup_session`). -/
def uaSelectedPerAttempt : Prop :=
  ∀ (cfg : Config) (env : Env) (url : String) (n : ℕ) (st : FetchState)
    (k : ℕ) (h : k < (make_request cfg env url n st).2.2.length),
    ((make_request cfg env url n st).2.2.get ⟨k, h⟩).ua =
      List.getD userAgents (env.uaPick (k + 1) % userAgents.length) ""

/-! ## Concrete inputs used by witnesses and counterexamples -/

def emptyDoc : Doc := {}

def urlW : String := "https://www.amazon.com/s?k=wireless+headphones"

def linkW : String := "https://www.amazon.com/Test-Item/dp/B00TESTA01"

/-- A search page with one product link and no next page. -/
def searchDocW : Doc := { linkHrefs := [some ("/Test-Item/dp/B00TESTA01?ref=x")] }

/-- A product page priced $49 (integer-valued so the parsed rational is a
plain cast, which the kernel can evaluate). -/
def productDocW : Doc := { priceCands := [some ("$49")] }

/-- A product page priced $150 (to be filtered). -/
def doc150 : Doc := { priceCands := [some ("$150")] }

/-- A product page priced $0 (falsy price: the filter is skipped). -/
def docZero : Doc := { priceCands := [some ("$0")] }

def cfgW : Config :=
  { proxyConfigured := false
    sessionRotationEnabled := false
    sessionMinRequests := 30
    sessionMaxRequests := 50 }

def cfgProxy : Config :=
  { proxyConfigured := true
    sessionRotationEnabled := false
    sessionMinRequests := 30
    sessionMaxRequests := 50 }

def cfg503 : Config :=
  { proxyConfigured := true
    sessionRotationEnabled := true
    sessionMinRequests := 2
    sessionMaxRequests := 5 }

def cfgC6 : Config :=
  { proxyConfigured := false
    sessionRotationEnabled := true
    sessionMinRequests := 5
    sessionMaxRequests := 5 }

/-- Oracle for a clean two-page-fetch run: request 0 returns the search page,
every later request the product page. -/
def envW : Env :=
  { resp := fun n => if n = 0 then Resp.status 200 searchDocW else Resp.status 200 productDocW
    randInt := fun _ _ _ => 30
    timeAt := fun _ => 0
    uaPick := fun _ => 0
    proxyUrl := fun _ => "" }

/-- Oracle answering 503 to every request. -/
def env503 : Env :=
  { resp := fun _ => Resp.status 503 emptyDoc
    randInt := fun _ _ _ => 3
    timeAt := fun _ => 7
    uaPick := fun _ => 0
    proxyUrl := fun _ => "http://proxy.local:8000" }

/-- Oracle raising a transport error on every request, with an identity
user-agent draw stream. -/
def envC7 : Env :=
  { resp := fun _ => Resp.exn
    randInt := fun _ _ _ => 30
    timeAt := fun _ => 0
    uaPick := fun n => n
    proxyUrl := fun _ => "" }

/-- Oracle whose first response is a 500 and later ones 200. -/
def envC6 : Env :=
  { resp := fun n => if n = 0 then Resp.status 500 emptyDoc else Resp.status 200 emptyDoc
    randInt := fun _ _ _ => 5
    timeAt := fun _ => 0
    uaPick := fun _ => 0
    proxyUrl := fun _ => "" }

/-- The record the witness run emits. -/
def productW : Product :=
  { url := linkW
    asin := some ("B00TESTA01")
    title := none
    price := some (PVal.num 49)
    rating := none
    review_count := none
    availability := none }

def runW : CrawlState :=
  scrape_search_results cfgW envW 20000 2 (some urlW) (initCrawlState cfgW envW)

/-- A session state about to receive its 10th response. -/
def st503 : FetchState :=
  { curRequests := 1
    rotLimit := some 4
    sessionId := SessId.start 5
    sessionCount := 0
    emergencyRotations := 0
    totalRequests := 9
    drawIdx := 1
    headerUA := "" }

/-- A fresh session whose threshold will be reached after one request. -/
def stC6 : FetchState :=
  { curRequests := 0
    rotLimit := some 1
    sessionId := SessId.start 0
    sessionCount := 0
    emergencyRotations := 0
    totalRequests := 0
    drawIdx := 1
    headerUA := "" }

/-- A session state whose scheduled rotation is due. -/
def stDue : FetchState :=
  { curRequests := 2
    rotLimit := some 2
    sessionId := SessId.start 0
    sessionCount := 0
    emergencyRotations := 0
    totalRequests := 0
    drawIdx := 1
    headerUA := "" }

/-- The trace entry of the second attempt in the C6 counterexample run. -/
def infoC6 : ReqInfo :=
  { ua := ""
    sid := SessId.start 0
    proxy := none
    dueAtIssue := true }

/-- The trace entry of the single attempt in the C7 witness run. -/
def infoP : ReqInfo :=
  { ua := List.getD userAgents 0 ""
    sid := SessId.start 7
    proxy := some ("http://proxy.local:8000")
    dueAtIssue := false }

/-- A crawl state that has already recorded the witness ASIN. -/
def csSeen : CrawlState :=
  { fetch := initFetchState cfgW envW
    products := []
    seen := ["B00TESTA01"] }

/-! ## Helper lemmas: numeric parsing is total on regex matches -/

theorem takeWhile_of_all {α : Type} (p : α → Bool) (l : List α)
    (h : ∀ c ∈ l, p c = true) : List.takeWhile p l = l := by
  induction l with
  | nil => rfl
  | cons c cs ih =>
    have hc : p c = true := h c (by simp)
    simp only [List.takeWhile_cons, hc, if_true]
    rw [ih fun x hx => h x (by simp [hx])]

theorem dropWhile_of_all {α : Type} (p : α → Bool) (l : List α)
    (h : ∀ c ∈ l, p c = true) : List.dropWhile p l = [] := by
  induction l with
  | nil => rfl
  | cons c cs ih =>
    have hc : p c = true := h c (by simp)
    simp only [List.dropWhile_cons, hc, if_true]
    exact ih fun x hx => h x (by simp [hx])

theorem takeWhile_append_stop {α : Type} (p : α → Bool) (l₁ l₂ : List α) (x : α)
    (h1 : ∀ c ∈ l₁, p c = true) (hx : p x = false) :
    List.takeWhile p (l₁ ++ x :: l₂) = l₁ := by
  induction l₁ with
  | nil => simp [List.takeWhile_cons, hx]
  | cons c cs ih =>
    have hc : p c = true := h1 c (by simp)
    simp only [List.cons_append, List.takeWhile_cons, hc, if_true]
    rw [ih fun y hy => h1 y (by simp [hy])]

theorem dropWhile_append_stop {α : Type} (p : α → Bool) (l₁ l₂ : List α) (x : α)
    (h1 : ∀ c ∈ l₁, p c = true) (hx : p x = false) :
    List.dropWhile p (l₁ ++ x :: l₂) = x :: l₂ := by
  induction l₁ with
  | nil => simp [List.dropWhile_cons, hx]
  | cons c cs ih =>
    have hc : p c = true := h1 c (by simp)
    simp only [List.cons_append, List.dropWhile_cons, hc, if_true]
    exact ih fun y hy => h1 y (by simp [hy])

theorem mem_takeWhile_sat {α : Type} (p : α → Bool) (l : List α) :
    ∀ c ∈ List.takeWhile p l, p c = true := by
  induction l with
  | nil => simp
  | cons a as ih =>
    by_cases ha : p a = true
    · simp only [List.takeWhile_cons, ha, if_true]
      intro c hc
      rcases List.mem_cons.mp hc with h | h
      · exact h ▸ ha
      · exact ih c h
    · simp [List.takeWhile_cons, ha]

/-- `float()` succeeds on every string the price/rating regex can match. -/
theorem parseFloat_of_numSearch (l m : List Char) (h : numSearch l = some m) :
    ∃ q, parseFloat m = some q := by
  induction l with
  | nil => cases h
  | cons c cs ih =>
    by_cases hc : c.isDigit = true
    · simp only [numSearch, hc, if_true, Option.some.injEq] at h
      set ip := List.takeWhile Char.isDigit (c :: cs) with hip
      have hipne : ip ≠ [] := by
        simp [hip, List.takeWhile_cons, hc]
      have hipall : ∀ x ∈ ip, Char.isDigit x = true := mem_takeWhile_sat _ _
      rcases hhead : (List.dropWhile Char.isDigit (c :: cs)).head? with _ | d
      · -- no dot follows: the match is the digit run itself
        rw [hhead] at h
        simp only [reduceCtorEq, if_false] at h
        subst h
        refine ⟨(digitsVal ip : ℚ), ?_⟩
        unfold parseFloat
        rw [takeWhile_of_all _ _ hipall, dropWhile_of_all _ _ hipall]
        simp [hipne]
      · by_cases hd : d = '.'
        · subst hd
          rw [hhead] at h
          simp only [if_true] at h
          subst h
          set fp := List.takeWhile Char.isDigit ((List.dropWhile Char.isDigit (c :: cs)).drop 1) with hfp
          have hfpall : ∀ x ∈ fp, Char.isDigit x = true := mem_takeWhile_sat _ _
          have hdot : Char.isDigit '.' = false := by decide
          refine ⟨(digitsVal ip : ℚ) + (digitsVal fp : ℚ) / (10 : ℚ) ^ fp.length, ?_⟩
          unfold parseFloat
          rw [takeWhile_append_stop _ _ _ _ hipall hdot,
              dropWhile_append_stop _ _ _ _ hipall hdot]
          have hall : List.all fp Char.isDigit = true := List.all_eq_true.mpr hfpall
          simp [hipne, hall]
        · rw [hhead] at h
          have : (some d = some '.') = False := by simp [hd]
          simp only [this, if_false] at h
          subst h
          refine ⟨(digitsVal ip : ℚ), ?_⟩
          unfold parseFloat
          rw [takeWhile_of_all _ _ hipall, dropWhile_of_all _ _ hipall]
          simp [hipne]
    · simp only [numSearch, hc, if_false] at h
      exact ih h

/-- The raw-text fallback branch of the price extraction is unreachable:
a regex match always converts. -/
theorem parsePriceText_no_text (txt : String) (s : String) :
    parsePriceText txt ≠ some (PVal.text s) := by
  unfold parsePriceText
  rcases hn : numSearch (stripCommas txt.data) with _ | m
  · simp
  · rcases parseFloat_of_numSearch _ m hn with ⟨q, hq⟩
    simp [hq]

/-- The extracted price field is never a raw-text value. -/
theorem scanPrice_no_text (cands : List (Option String)) (s : String) :
    scanNumeric parsePriceText cands ≠ some (PVal.text s) := by
  induction cands with
  | nil => simp [scanNumeric]
  | cons c rest ih =>
    rcases c with _ | txt
    · simpa [scanNumeric] using ih
    · rcases hp : parsePriceText txt with _ | v
      · simpa [scanNumeric, hp] using ih
      · rcases v with q | s2
        · simp [scanNumeric, hp]
        · exact absurd hp (parsePriceText_no_text txt s2)

/-- On a numeric price the filter reduces to the 100-threshold (the truthiness
guard is implied: a price over 100 is nonzero). -/
theorem priceFilterDrops_num (q : ℚ) :
    priceFilterDrops (some (PVal.num q)) = true ↔ 100 < q := by
  simp only [priceFilterDrops, pyTruthyPrice, isNumericPrice, priceGt100,
    Bool.and_true, Bool.and_eq_true, decide_eq_true_eq]
  constructor
  · rintro ⟨-, h⟩
    exact h
  · intro h
    exact ⟨ne_of_gt (lt_trans (by norm_num) h), h⟩

/-- The price filter drops a record exactly when its price is a parsed number
greater than 100. -/
theorem priceFilterDrops_iff (p : Option PVal) :
    priceFilterDrops p = true ↔ ∃ q : ℚ, p = some (PVal.num q) ∧ 100 < q := by
  rcases p with _ | v
  · simp [priceFilterDrops, pyTruthyPrice]
  · rcases v with q | s
    · rw [priceFilterDrops_num]
      constructor
      · intro h
        exact ⟨q, rfl, h⟩
      · rintro ⟨q2, hq2, hgt⟩
        simp only [Option.some.injEq, PVal.num.injEq] at hq2
        rw [hq2]
        exact hgt
    · constructor
      · intro h
        have : isNumericPrice (some (PVal.text s)) = true := by
          have hh := h
          simp only [priceFilterDrops, Bool.and_eq_true] at hh
          exact hh.1.2
        simp [isNumericPrice] at this
      · rintro ⟨q2, hq2, -⟩
        simp at hq2

/-- A record surviving `extract_product_data` is the extracted record and
passed the price filter. -/
theorem extract_product_data_some (doc : Doc) (url : String) (p : Product)
    (h : extract_product_data doc url = some p) :
    p = extract_record doc url ∧ priceFilterDrops p.price = false := by
  unfold extract_product_data at h
  by_cases hd : priceFilterDrops (extract_record doc url).price = true
  · simp [hd] at h
  · rw [Bool.not_eq_true] at hd
    simp only [hd, Bool.false_eq_true, if_false, Option.some.injEq] at h
    subst h
    exact ⟨rfl, hd⟩

/-- Any record produced by `extract_product_data` satisfies the price
invariant. -/
theorem extract_product_data_priceOK (doc : Doc) (url : String) (p : Product)
    (h : extract_product_data doc url = some p) : priceOK p := by
  rcases extract_product_data_some doc url p h with ⟨hrec, hpass⟩
  unfold priceOK
  rcases hp : p.price with _ | v
  · exact Or.inl rfl
  · rcases v with q | s
    · refine Or.inr ⟨q, rfl, ?_⟩
      by_contra hgt
      push_neg at hgt
      have : priceFilterDrops p.price = true := (priceFilterDrops_iff _).mpr ⟨q, hp, hgt⟩
      rw [this] at hpass
      cases hpass
    · have hps : scanNumeric parsePriceText doc.priceCands = some (PVal.text s) := by
        have h2 : (extract_record doc url).price = some (PVal.text s) := by
          rw [← hrec]
          exact hp
        exact h2
      exact absurd hps (scanPrice_no_text doc.priceCands s)

/-! ## Helper lemmas: rotation controller and fetch loop -/

theorem rotate_disabled (cfg : Config) (env : Env) (st : FetchState)
    (h : cfg.sessionRotationEnabled = false) :
    rotate_session_if_needed cfg env st = (false, st) := by
  simp [rotate_session_if_needed, h]

theorem rotate_spec_due (cfg : Config) (env : Env) (st : FetchState)
    (hen : cfg.sessionRotationEnabled = true)
    (hdue : geLimit st.curRequests st.rotLimit = true) :
    rotate_session_if_needed cfg env st =
      (true,
        { st with
          sessionCount := st.sessionCount + 1
          sessionId := SessId.rotated (env.timeAt st.drawIdx) (st.sessionCount + 1)
          curRequests := 0
          rotLimit := some (env.randInt st.drawIdx cfg.sessionMinRequests cfg.sessionMaxRequests)
          drawIdx := st.drawIdx + 1 }) := by
  simp [rotate_session_if_needed, hen, hdue]

theorem rotate_spec_not_due (cfg : Config) (env : Env) (st : FetchState)
    (hdue : geLimit st.curRequests st.rotLimit = false) :
    rotate_session_if_needed cfg env st = (false, st) := by
  unfold rotate_session_if_needed
  split_ifs with h1 h2
  · rfl
  · rw [hdue] at h2
    cases h2
  · rfl

theorem rotate_totalRequests (cfg : Config) (env : Env) (st : FetchState) :
    (rotate_session_if_needed cfg env st).2.totalRequests = st.totalRequests := by
  unfold rotate_session_if_needed
  split_ifs <;> rfl

theorem rotate_headerUA (cfg : Config) (env : Env) (st : FetchState) :
    (rotate_session_if_needed cfg env st).2.headerUA = st.headerUA := by
  unfold rotate_session_if_needed
  split_ifs <;> rfl

theorem request_attempt_totalRequests (cfg : Config) (env : Env) (st : FetchState) :
    (request_attempt cfg env st).2.1.totalRequests = st.totalRequests + 1 := by
  rcases hr : env.resp st.totalRequests with ⟨code, body⟩ | _
  · simp only [request_attempt, hr]
    split_ifs <;> rfl
  · simp only [request_attempt, hr]

theorem request_attempt_headerUA (cfg : Config) (env : Env) (st : FetchState) :
    (request_attempt cfg env st).2.1.headerUA = st.headerUA := by
  rcases hr : env.resp st.totalRequests with ⟨code, body⟩ | _
  · simp only [request_attempt, hr]
    split_ifs <;> rfl
  · simp only [request_attempt, hr]

/-- What one attempt records in the trace: the session `User-Agent` header,
the session id at the attempt, the proxy resolved for that id, and whether a
scheduled rotation was due. -/
theorem request_attempt_info (cfg : Config) (env : Env) (st : FetchState) :
    (request_attempt cfg env st).2.2 =
      { ua := st.headerUA
        sid := st.sessionId
        proxy := if cfg.proxyConfigured = true then some (env.proxyUrl st.sessionId) else none
        dueAtIssue := cfg.sessionRotationEnabled && geLimit st.curRequests st.rotLimit } := by
  rcases hr : env.resp st.totalRequests with ⟨code, body⟩ | _
  · simp only [request_attempt, hr]
    split_ifs <;> rfl
  · simp only [request_attempt, hr]

/-- A fetch attempt succeeds with document `d` exactly when the HTTP response
to it is status 200 with body `d`. -/
theorem request_attempt_success_iff (cfg : Config) (env : Env) (st : FetchState) (d : Doc) :
    (request_attempt cfg env st).1 = AttemptRes.success d ↔
      env.resp st.totalRequests = Resp.status 200 d := by
  rcases hr : env.resp st.totalRequests with ⟨code, body⟩ | _
  · simp only [request_attempt, hr]
    split_ifs <;> simp_all
  · simp only [request_attempt, hr]
    simp

/-- The 503 branch (`main.py:152-167`): with a proxy configured and rotation
enabled, the attempt performs an emergency rotation in the state it hands to
the next attempt. -/
theorem request_attempt_503 (cfg : Config) (env : Env) (st : FetchState) (b : Doc)
    (hproxy : cfg.proxyConfigured = true) (hrot : cfg.sessionRotationEnabled = true)
    (hr : env.resp st.totalRequests = Resp.status 503 b) :
    request_attempt cfg env st =
      (AttemptRes.failed,
        { st with
          totalRequests := st.totalRequests + 1
          emergencyRotations := st.emergencyRotations + 1
          sessionCount := st.sessionCount + 1
          sessionId := SessId.emergency (env.timeAt st.drawIdx) (st.sessionCount + 1)
          curRequests := 0
          rotLimit := some (env.randInt st.drawIdx cfg.sessionMinRequests cfg.sessionMaxRequests)
          drawIdx := st.drawIdx + 1 },
        { ua := st.headerUA
          sid := st.sessionId
          proxy := some (env.proxyUrl st.sessionId)
          dueAtIssue := cfg.sessionRotationEnabled && geLimit st.curRequests st.rotLimit }) := by
  simp only [request_attempt, hr, hproxy, hrot]
  norm_num

/-- Without both a proxy and rotation enabled, no attempt changes the session
id, the session counter or the threshold. -/
theorem request_attempt_no_rotation_fields (cfg : Config) (env : Env) (st : FetchState)
    (h : cfg.proxyConfigured = false ∨ cfg.sessionRotationEnabled = false) :
    (request_attempt cfg env st).2.1.sessionId = st.sessionId ∧
    (request_attempt cfg env st).2.1.sessionCount = st.sessionCount ∧
    (request_attempt cfg env st).2.1.rotLimit = st.rotLimit := by
  have hand : (cfg.proxyConfigured && cfg.sessionRotationEnabled) = false := by
    rcases h with h | h <;> simp [h]
  rcases hr : env.resp st.totalRequests with ⟨code, body⟩ | _
  · simp only [request_attempt, hr, hand, Bool.false_eq_true, if_false]
    split_ifs <;> simp
  · simp [request_attempt, hr]

/-- An attempt whose response is not a 503 changes no rotation state. -/
theorem request_attempt_no503_fields (cfg : Config) (env : Env) (st : FetchState)
    (h : ∀ b, env.resp st.totalRequests ≠ Resp.status 503 b) :
    (request_attempt cfg env st).2.1.sessionId = st.sessionId ∧
    (request_attempt cfg env st).2.1.sessionCount = st.sessionCount ∧
    (request_attempt cfg env st).2.1.rotLimit = st.rotLimit := by
  rcases hr : env.resp st.totalRequests with ⟨code, body⟩ | _
  · have hc : ¬code = 503 := by
      intro hc
      exact h body (by rw [hr, hc])
    simp only [request_attempt, hr]
    split_ifs <;> first | exact absurd (by assumption) hc | simp
  · simp [request_attempt, hr]

theorem make_request_loop_totalRequests_le (cfg : Config) (env : Env) :
    ∀ (n : ℕ) (st : FetchState),
      st.totalRequests ≤ (make_request_loop cfg env n st).2.1.totalRequests := by
  intro n
  induction n with
  | zero => intro st; exact le_refl _
  | succ n ih =>
    intro st
    rcases hra : request_attempt cfg env st with ⟨res, st1, info⟩
    have ht1 : st1.totalRequests = st.totalRequests + 1 := by
      have := request_attempt_totalRequests cfg env st
      rw [hra] at this
      exact this
    rcases res with d2 | _
    · simp only [make_request_loop, hra]
      omega
    · simp only [make_request_loop, hra]
      have := ih st1
      omega

/-- A successful fetch result is the parsed body of some status-200 response. -/
theorem make_request_loop_some_200 (cfg : Config) (env : Env) :
    ∀ (n : ℕ) (st : FetchState) (d : Doc),
      (make_request_loop cfg env n st).1 = some d →
      ∃ k, env.resp k = Resp.status 200 d := by
  intro n
  induction n with
  | zero =>
    intro st d h
    simp [make_request_loop] at h
  | succ n ih =>
    intro st d h
    rcases hra : request_attempt cfg env st with ⟨res, st1, info⟩
    rcases res with d2 | _
    · simp only [make_request_loop, hra, Option.some.injEq] at h
      subst h
      exact ⟨st.totalRequests, (request_attempt_success_iff cfg env st d2).mp (by rw [hra])⟩
    · simp only [make_request_loop, hra] at h
      exact ih st1 d h

/-- When no response in the window of the up-to-`n` attempts is a 200, the
loop exhausts all `n` attempts and yields no document. -/
theorem make_request_loop_no200 (cfg : Config) (env : Env) :
    ∀ (n : ℕ) (st : FetchState),
      (∀ k, k < n → ∀ d, env.resp (st.totalRequests + k) ≠ Resp.status 200 d) →
      (make_request_loop cfg env n st).1 = none ∧
      (make_request_loop cfg env n st).2.1.totalRequests = st.totalRequests + n := by
  intro n
  induction n with
  | zero => intro st _; exact ⟨rfl, rfl⟩
  | succ n ih =>
    intro st h
    rcases hra : request_attempt cfg env st with ⟨res, st1, info⟩
    have h0 : ∀ d, env.resp st.totalRequests ≠ Resp.status 200 d := by
      intro d
      have := h 0 (Nat.succ_pos n) d
      simpa using this
    have ht1 : st1.totalRequests = st.totalRequests + 1 := by
      have := request_attempt_totalRequests cfg env st
      rw [hra] at this
      exact this
    rcases res with d2 | _
    · exact absurd ((request_attempt_success_iff cfg env st d2).mp (by rw [hra])) (h0 d2)
    · have hshift : ∀ k, k < n → ∀ d, env.resp (st1.totalRequests + k) ≠ Resp.status 200 d := by
        intro k hk d
        rw [ht1]
        have heq : st.totalRequests + 1 + k = st.totalRequests + (k + 1) := by omega
        rw [heq]
        exact h (k + 1) (by omega) d
      rcases ih st1 hshift with ⟨h1, h2⟩
      constructor
      · simp only [make_request_loop, hra]
        exact h1
      · simp only [make_request_loop, hra]
        rw [h2, ht1]
        omega

/-! ## Helper lemmas: crawl loop -/

theorem asinSeen_true_iff (o : Option String) (seen : List String) :
    asinSeen o seen = true ↔ ∃ a, o = some a ∧ a ≠ "" ∧ a ∈ seen := by
  rcases o with _ | a
  · simp [asinSeen]
  · simp [asinSeen]

theorem mem_addAsin (a : String) (seen : List String) : a ∈ addAsin a seen := by
  unfold addAsin
  split_ifs with h
  · exact h
  · exact List.mem_cons_self a seen

theorem addAsin_subset (a : String) (seen : List String) : seen ⊆ addAsin a seen := by
  unfold addAsin
  split_ifs with h
  · exact fun x hx => hx
  · exact fun x hx => List.mem_cons_of_mem a hx

theorem recordAsin_subset (o : Option String) (seen : List String) :
    seen ⊆ recordAsin o seen := by
  rcases o with _ | a
  · exact fun x hx => hx
  · simp only [recordAsin]
    split_ifs with h
    · exact fun x hx => hx
    · exact addAsin_subset a seen

theorem mem_recordAsin_some (a : String) (seen : List String) (h : a ≠ "") :
    a ∈ recordAsin (some a) seen := by
  simp only [recordAsin]
  split_ifs with h2
  · exact absurd h2 h
  · exact mem_addAsin a seen

/-- Case analysis on handling one product link: an already-seen ASIN is
skipped without fetching and without any state change; otherwise the product
page is fetched and the record is either not emitted (no document, or dropped
by the filter) leaving products and seen ASINs unchanged, or emitted, in which
case it is appended and its ASIN recorded. -/
theorem link_step_cases (cfg : Config) (env : Env) (l : String) (cs : CrawlState) :
    (asinSeen (extract_asin l) cs.seen = true ∧
      link_step cfg env l cs = ⟨cs, false, false⟩) ∨
    (asinSeen (extract_asin l) cs.seen = false ∧
      (link_step cfg env l cs).fetched = true ∧
      (((link_step cfg env l cs).emitted = false ∧
        (link_step cfg env l cs).cs.products = cs.products ∧
        (link_step cfg env l cs).cs.seen = cs.seen) ∨
       ((link_step cfg env l cs).emitted = true ∧
        ∃ d : Doc, ∃ p : Product,
          extract_product_data d l = some p ∧
          (link_step cfg env l cs).cs.products = cs.products ++ [p] ∧
          (link_step cfg env l cs).cs.seen = recordAsin (extract_asin l) cs.seen))) := by
  by_cases hseen : asinSeen (extract_asin l) cs.seen = true
  · refine Or.inl ⟨hseen, ?_⟩
    simp only [link_step, hseen, if_true]
  · rw [Bool.not_eq_true] at hseen
    refine Or.inr ⟨hseen, ?_⟩
    rcases hmr : make_request cfg env l 3 cs.fetch with ⟨dopt, st2, tr⟩
    rcases dopt with _ | d
    · constructor
      · simp [link_step, hseen, hmr]
      · left
        refine ⟨?_, ?_, ?_⟩ <;> simp [link_step, hseen, hmr]
    · rcases hepd : extract_product_data d l with _ | p
      · constructor
        · simp [link_step, hseen, hmr, hepd]
        · left
          refine ⟨?_, ?_, ?_⟩ <;> simp [link_step, hseen, hmr, hepd]
      · constructor
        · simp [link_step, hseen, hmr, hepd]
        · right
          refine ⟨?_, d, p, hepd, ?_, ?_⟩ <;> simp [link_step, hseen, hmr, hepd]

theorem link_step_length (cfg : Config) (env : Env) (l : String) (cs : CrawlState) :
    (link_step cfg env l cs).cs.products.length ≤ cs.products.length + 1 := by
  rcases link_step_cases cfg env l cs with ⟨-, heq⟩ | ⟨-, -, ⟨-, hp, -⟩ | ⟨-, d, p, -, hp, -⟩⟩
  · rw [heq]
    exact Nat.le_succ _
  · rw [hp]
    exact Nat.le_succ _
  · rw [hp]
    simp

theorem link_step_seen_mono (cfg : Config) (env : Env) (l : String) (cs : CrawlState) :
    cs.seen ⊆ (link_step cfg env l cs).cs.seen := by
  rcases link_step_cases cfg env l cs with ⟨-, heq⟩ | ⟨-, -, ⟨-, -, hs⟩ | ⟨-, d, p, -, -, hs⟩⟩
  · rw [heq]
    exact fun x hx => hx
  · rw [hs]
    exact fun x hx => hx
  · rw [hs]
    exact recordAsin_subset _ _

theorem link_step_priceOK (cfg : Config) (env : Env) (l : String) (cs : CrawlState)
    (h : ∀ p ∈ cs.products, priceOK p) :
    ∀ p ∈ (link_step cfg env l cs).cs.products, priceOK p := by
  rcases link_step_cases cfg env l cs with ⟨-, heq⟩ | ⟨-, -, ⟨-, hp, -⟩ | ⟨-, d, p0, hpd, hp, -⟩⟩
  · rw [heq]
    exact h
  · rw [hp]
    exact h
  · rw [hp]
    intro p2 hp2
    rcases List.mem_append.mp hp2 with h2 | h2
    · exact h p2 h2
    · rcases List.mem_singleton.mp h2 with rfl
      exact extract_product_data_priceOK d l p2 hpd

theorem link_step_good (cfg : Config) (env : Env) (l : String) (cs : CrawlState)
    (h : GoodCS cs) : GoodCS (link_step cfg env l cs).cs := by
  rcases link_step_cases cfg env l cs with ⟨-, heq⟩ |
    ⟨hseen, -, ⟨-, hp, hs⟩ | ⟨-, d, p0, hpd, hp, hs⟩⟩
  · rw [heq]
    exact h
  · exact ⟨by rw [hp, hs]; exact h.1, by rw [hp]; exact h.2⟩
  · have hasin : p0.asin = extract_asin l := by
      rw [(extract_product_data_some d l p0 hpd).1]
      rfl
    constructor
    · rw [hp, hs]
      intro p2 hp2 a ha hpa
      rcases List.mem_append.mp hp2 with h2 | h2
      · exact recordAsin_subset _ _ (h.1 p2 h2 a ha hpa)
      · rcases List.mem_singleton.mp h2 with rfl
        rw [hpa] at hasin
        rw [← hasin]
        exact mem_recordAsin_some a cs.seen ha
    · rw [hp]
      rw [List.pairwise_append]
      refine ⟨h.2, List.pairwise_singleton _ _, ?_⟩
      intro x hx y hy
      rcases List.mem_singleton.mp hy with rfl
      intro a ha hxa hya
      have hmem : a ∈ cs.seen := h.1 x hx a ha hxa
      have : asinSeen (extract_asin l) cs.seen = true := by
        rw [← hasin, hya]
        exact (asinSeen_true_iff _ _).mpr ⟨a, rfl, ha, hmem⟩
      rw [this] at hseen
      cases hseen

theorem process_links_preserve (cfg : Config) (env : Env) (maxP : ℕ)
    (P : CrawlState → Prop)
    (hstep : ∀ l cs, P cs → P (link_step cfg env l cs).cs) :
    ∀ (ls : List String) (cs : CrawlState), P cs → P (process_links cfg env maxP ls cs) := by
  intro ls
  induction ls with
  | nil => intro cs h; exact h
  | cons l ls ih =>
    intro cs h
    simp only [process_links]
    split_ifs with hlen
    · exact h
    · exact ih _ (hstep l cs h)

theorem scrape_preserve (cfg : Config) (env : Env) (maxP : ℕ)
    (P : CrawlState → Prop)
    (hstep : ∀ l cs, P cs → P (link_step cfg env l cs).cs)
    (hfetch : ∀ (cs : CrawlState) (st2 : FetchState), P cs → P { cs with fetch := st2 }) :
    ∀ (fuel : ℕ) (url : Option String) (cs : CrawlState),
      P cs → P (scrape_search_results cfg env maxP fuel url cs) := by
  intro fuel
  induction fuel with
  | zero => intro url cs h; exact h
  | succ fuel ih =>
    intro url cs h
    rcases url with _ | u
    · exact h
    · simp only [scrape_search_results]
      split_ifs with hlen
      · rcases hmr : make_request cfg env u 3 cs.fetch with ⟨dopt, st2, tr⟩
        rcases dopt with _ | doc
        · simp only [hmr]
          exact hfetch cs st2 h
        · simp only [hmr]
          exact ih _ _ (process_links_preserve cfg env maxP P hstep _ _ (hfetch cs st2 h))
      · exact h

theorem process_links_length (cfg : Config) (env : Env) (maxP : ℕ) :
    ∀ (ls : List String) (cs : CrawlState), cs.products.length ≤ maxP →
      (process_links cfg env maxP ls cs).products.length ≤ maxP := by
  intro ls
  induction ls with
  | nil => intro cs h; exact h
  | cons l ls ih =>
    intro cs h
    simp only [process_links]
    split_ifs with hlen
    · exact h
    · push_neg at hlen
      refine ih _ ?_
      have := link_step_length cfg env l cs
      omega

theorem scrape_length (cfg : Config) (env : Env) (maxP : ℕ) :
    ∀ (fuel : ℕ) (url : Option String) (cs : CrawlState), cs.products.length ≤ maxP →
      (scrape_search_results cfg env maxP fuel url cs).products.length ≤ maxP := by
  intro fuel
  induction fuel with
  | zero => intro url cs h; exact h
  | succ fuel ih =>
    intro url cs h
    rcases url with _ | u
    · exact h
    · simp only [scrape_search_results]
      split_ifs with hlen
      · rcases hmr : make_request cfg env u 3 cs.fetch with ⟨dopt, st2, tr⟩
        rcases dopt with _ | doc
        · simp only [hmr]
          exact h
        · simp only [hmr]
          exact ih _ _ (process_links_length cfg env maxP _ _ h)
      · exact h

theorem process_links_stop (cfg : Config) (env : Env) (maxP : ℕ)
    (ls : List String) (cs : CrawlState) (h : maxP ≤ cs.products.length) :
    process_links cfg env maxP ls cs = cs := by
  cases ls with
  | nil => rfl
  | cons l ls =>
    simp only [process_links]
    rw [if_pos h]

theorem scrape_stop (cfg : Config) (env : Env) (maxP : ℕ)
    (fuel : ℕ) (url : Option String) (cs : CrawlState) (h : maxP ≤ cs.products.length) :
    scrape_search_results cfg env maxP fuel url cs = cs := by
  cases fuel with
  | zero => rfl
  | succ fuel =>
    cases url with
    | none => rfl
    | some u =>
      simp only [scrape_search_results]
      rw [if_neg (by omega)]

/-! ## Helper lemmas: session id preservation and attempt traces -/

theorem make_request_loop_sessionId_disabled (cfg : Config) (env : Env)
    (h : cfg.sessionRotationEnabled = false) :
    ∀ (n : ℕ) (st : FetchState),
      (make_request_loop cfg env n st).2.1.sessionId = st.sessionId := by
  intro n
  induction n with
  | zero => intro st; rfl
  | succ n ih =>
    intro st
    rcases hra : request_attempt cfg env st with ⟨res, st1, info⟩
    have hs1 : st1.sessionId = st.sessionId := by
      have := (request_attempt_no_rotation_fields cfg env st (Or.inr h)).1
      rw [hra] at this
      exact this
    rcases res with d | _
    · simp only [make_request_loop, hra]
      exact hs1
    · simp only [make_request_loop, hra]
      rw [ih st1, hs1]

theorem make_request_sessionId_disabled (cfg : Config) (env : Env) (url : String)
    (n : ℕ) (st : FetchState) (h : cfg.sessionRotationEnabled = false) :
    (make_request cfg env url n st).2.1.sessionId = st.sessionId := by
  unfold make_request
  rw [rotate_disabled cfg env st h]
  exact make_request_loop_sessionId_disabled cfg env h n st

theorem make_request_loop_trace_sid_disabled (cfg : Config) (env : Env)
    (h : cfg.sessionRotationEnabled = false) :
    ∀ (n : ℕ) (st : FetchState),
      ∀ info ∈ (make_request_loop cfg env n st).2.2, info.sid = st.sessionId := by
  intro n
  induction n with
  | zero =>
    intro st info hinfo
    simp [make_request_loop] at hinfo
  | succ n ih =>
    intro st info hinfo
    rcases hra : request_attempt cfg env st with ⟨res, st1, info0⟩
    have hinfo0 : info0.sid = st.sessionId := by
      have h2 : info0 =
          { ua := st.headerUA
            sid := st.sessionId
            proxy := if cfg.proxyConfigured = true then some (env.proxyUrl st.sessionId) else none
            dueAtIssue := cfg.sessionRotationEnabled && geLimit st.curRequests st.rotLimit } := by
        have h3 := request_attempt_info cfg env st
        rw [hra] at h3
        exact h3
      rw [h2]
    have hs1 : st1.sessionId = st.sessionId := by
      have := (request_attempt_no_rotation_fields cfg env st (Or.inr h)).1
      rw [hra] at this
      exact this
    rcases res with d | _
    · simp only [make_request_loop, hra, List.mem_singleton] at hinfo
      rw [hinfo]
      exact hinfo0
    · simp only [make_request_loop, hra, List.mem_cons] at hinfo
      rcases hinfo with rfl | hinfo
      · exact hinfo0
      · rw [ih st1 info hinfo, hs1]

theorem make_request_trace_sid_disabled (cfg : Config) (env : Env) (url : String)
    (n : ℕ) (st : FetchState) (h : cfg.sessionRotationEnabled = false) :
    ∀ info ∈ (make_request cfg env url n st).2.2, info.sid = st.sessionId := by
  intro info hinfo
  unfold make_request at hinfo
  rw [rotate_disabled cfg env st h] at hinfo
  exact make_request_loop_trace_sid_disabled cfg env h n st info hinfo

/-- Every attempt in a fetch call sends the `User-Agent` fixed at session
setup, and resolves its proxy from the session id current at that attempt. -/
theorem make_request_loop_trace_identity (cfg : Config) (env : Env) :
    ∀ (n : ℕ) (st : FetchState),
      ∀ info ∈ (make_request_loop cfg env n st).2.2,
        info.ua = st.headerUA ∧
        info.proxy = (if cfg.proxyConfigured = true then some (env.proxyUrl info.sid) else none) := by
  intro n
  induction n with
  | zero =>
    intro st info hinfo
    simp [make_request_loop] at hinfo
  | succ n ih =>
    intro st info hinfo
    rcases hra : request_attempt cfg env st with ⟨res, st1, info0⟩
    have hinfo0 : info0 =
        { ua := st.headerUA
          sid := st.sessionId
          proxy := if cfg.proxyConfigured = true then some (env.proxyUrl st.sessionId) else none
          dueAtIssue := cfg.sessionRotationEnabled && geLimit st.curRequests st.rotLimit } := by
      have := request_attempt_info cfg env st
      rw [hra] at this
      exact this
    have hua1 : st1.headerUA = st.headerUA := by
      have := request_attempt_headerUA cfg env st
      rw [hra] at this
      exact this
    rcases res with d | _
    · simp only [make_request_loop, hra, List.mem_singleton] at hinfo
      rw [hinfo, hinfo0]
      exact ⟨rfl, rfl⟩
    · simp only [make_request_loop, hra, List.mem_cons] at hinfo
      rcases hinfo with rfl | hinfo
      · rw [hinfo0]
        exact ⟨rfl, rfl⟩
      · rcases ih st1 info hinfo with ⟨h1, h2⟩
        exact ⟨by rw [h1, hua1], h2⟩

theorem make_request_trace_identity (cfg : Config) (env : Env) (url : String)
    (n : ℕ) (st : FetchState) :
    ∀ info ∈ (make_request cfg env url n st).2.2,
      info.ua = st.headerUA ∧
      info.proxy = (if cfg.proxyConfigured = true then some (env.proxyUrl info.sid) else none) := by
  intro info hinfo
  unfold make_request at hinfo
  rcases make_request_loop_trace_identity cfg env n _ info hinfo with ⟨h1, h2⟩
  exact ⟨by rw [h1, rotate_headerUA], h2⟩

/-- A freshly minted emergency session id differs from the id it replaces,
because the embedded rotation counter strictly increases. -/
theorem emergency_id_ne (s : SessId) (t c : ℕ) (h : idCount s ≤ c) :
    SessId.emergency t (c + 1) ≠ s := by
  cases s with
  | start t2 => simp
  | rotated t2 c2 => simp
  | emergency t2 c2 =>
    intro he
    injection he with h1 h2
    simp only [idCount] at h
    omega

/-- The retry loop performs no rotation of its own: when no response is a
503, session id, session counter and threshold are untouched even if a
scheduled rotation became due mid-call. -/
theorem make_request_loop_no503 (cfg : Config) (env : Env)
    (h : ∀ (k : ℕ) (b : Doc), env.resp k ≠ Resp.status 503 b) :
    ∀ (n : ℕ) (st : FetchState),
      (make_request_loop cfg env n st).2.1.sessionId = st.sessionId ∧
      (make_request_loop cfg env n st).2.1.sessionCount = st.sessionCount ∧
      (make_request_loop cfg env n st).2.1.rotLimit = st.rotLimit := by
  intro n
  induction n with
  | zero => intro st; exact ⟨rfl, rfl, rfl⟩
  | succ n ih =>
    intro st
    rcases hra : request_attempt cfg env st with ⟨res, st1, info⟩
    have hfields := request_attempt_no503_fields cfg env st (fun b => h st.totalRequests b)
    rw [hra] at hfields
    rcases res with d | _
    · simp only [make_request_loop, hra]
      exact hfields
    · simp only [make_request_loop, hra]
      rcases ih st1 with ⟨i1, i2, i3⟩
      rcases hfields with ⟨f1, f2, f3⟩
      exact ⟨by rw [i1, f1], by rw [i2, f2], by rw [i3, f3]⟩

theorem link_step_sessionId_disabled (cfg : Config) (env : Env) (l : String)
    (cs : CrawlState) (h : cfg.sessionRotationEnabled = false) :
    (link_step cfg env l cs).cs.fetch.sessionId = cs.fetch.sessionId := by
  by_cases hseen : asinSeen (extract_asin l) cs.seen = true
  · simp [link_step, hseen]
  · rw [Bool.not_eq_true] at hseen
    rcases hmr : make_request cfg env l 3 cs.fetch with ⟨dopt, st2, tr⟩
    have hs : st2.sessionId = cs.fetch.sessionId := by
      have := make_request_sessionId_disabled cfg env l 3 cs.fetch h
      rw [hmr] at this
      exact this
    rcases dopt with _ | d
    · simp [link_step, hseen, hmr, hs]
    · rcases hepd : extract_product_data d l with _ | p
      · simp [link_step, hseen, hmr, hepd, hs]
      · simp [link_step, hseen, hmr, hepd, hs]

theorem process_links_sessionId_disabled (cfg : Config) (env : Env) (maxP : ℕ)
    (h : cfg.sessionRotationEnabled = false) :
    ∀ (ls : List String) (cs : CrawlState),
      (process_links cfg env maxP ls cs).fetch.sessionId = cs.fetch.sessionId := by
  intro ls
  induction ls with
  | nil => intro cs; rfl
  | cons l ls ih =>
    intro cs
    simp only [process_links]
    split_ifs with hlen
    · rfl
    · rw [ih _, link_step_sessionId_disabled cfg env l cs h]

theorem scrape_sessionId_disabled (cfg : Config) (env : Env) (maxP : ℕ)
    (h : cfg.sessionRotationEnabled = false) :
    ∀ (fuel : ℕ) (url : Option String) (cs : CrawlState),
      (scrape_search_results cfg env maxP fuel url cs).fetch.sessionId = cs.fetch.sessionId := by
  intro fuel
  induction fuel with
  | zero => intro url cs; rfl
  | succ fuel ih =>
    intro url cs
    rcases url with _ | u
    · rfl
    · simp only [scrape_search_results]
      split_ifs with hlen
      · rcases hmr : make_request cfg env u 3 cs.fetch with ⟨dopt, st2, tr⟩
        have hs : st2.sessionId = cs.fetch.sessionId := by
          have := make_request_sessionId_disabled cfg env u 3 cs.fetch h
          rw [hmr] at this
          exact this
        rcases dopt with _ | doc
        · simp only [hmr]
          exact hs
        · simp only [hmr]
          rw [ih _ _, process_links_sessionId_disabled cfg env maxP h _ _]
          exact hs
      · rfl

/-! ## The claims -/

/-- C1: every record emitted to the sink satisfies the price filter — its
price field is absent or its price is at most 100 — and a product record
whose extracted numeric price exceeds 100 is built by the extractor but
`extract_product_data` returns `None` for it, so it is never emitted. -/
theorem C1_price_filter (cfg : Config) (env : Env) (maxP fuel : ℕ) (url : Option String) :
    (∀ p ∈ (scrape_search_results cfg env maxP fuel url (initCrawlState cfg env)).products,
      priceOK p) ∧
    (∀ (doc : Doc) (u : String) (q : ℚ),
      (extract_record doc u).price = some (PVal.num q) → 100 < q →
      extract_product_data doc u = none) := by
  constructor
  · have h := scrape_preserve cfg env maxP (fun cs => ∀ p2 ∈ cs.products, priceOK p2)
      (fun l cs hg => link_step_priceOK cfg env l cs hg)
      (fun cs st2 hg => hg)
      fuel url (initCrawlState cfg env)
      (fun p2 hp2 => absurd hp2 (List.not_mem_nil p2))
    exact h
  · intro doc u q hq hgt
    have hdrop : priceFilterDrops (extract_record doc u).price = true :=
      (priceFilterDrops_iff _).mpr ⟨q, hq, hgt⟩
    simp only [extract_product_data]
    rw [hdrop]
    simp

/-- C1 witness: the concrete run emits exactly the $49 record, which
satisfies the invariant; a $150 page is extracted with numeric price 150 and
dropped. -/
theorem C1_witness :
    productW ∈ runW.products ∧ priceOK productW ∧
    (extract_record doc150 linkW).price = some (PVal.num 150) ∧
    extract_product_data doc150 linkW = none := by
  have hmem : productW ∈ runW.products := by decide
  refine ⟨hmem, (C1_price_filter cfgW envW 20000 2 (some urlW)).1 productW hmem, by decide, ?_⟩
  exact (C1_price_filter cfgW envW 20000 2 (some urlW)).2 doc150 linkW 150 (by decide) (by norm_num)

/-- C2: for every configured `maxProducts = N` and every run the number of
emitted records is at most `N`, and the crawl loop stops processing further
links and pages as soon as `N` records have been emitted. -/
theorem C2_max_products (cfg : Config) (env : Env) (maxP fuel : ℕ) (url : Option String) :
    (scrape_search_results cfg env maxP fuel url (initCrawlState cfg env)).products.length ≤ maxP ∧
    (∀ (ls : List String) (cs : CrawlState), maxP ≤ cs.products.length →
      process_links cfg env maxP ls cs = cs) ∧
    (∀ (fuel2 : ℕ) (url2 : Option String) (cs : CrawlState), maxP ≤ cs.products.length →
      scrape_search_results cfg env maxP fuel2 url2 cs = cs) := by
  refine ⟨?_, ?_, ?_⟩
  · exact scrape_length cfg env maxP fuel url _ (Nat.zero_le maxP)
  · exact fun ls cs h => process_links_stop cfg env maxP ls cs h
  · exact fun fuel2 url2 cs h => scrape_stop cfg env maxP fuel2 url2 cs h

/-- C2 witness: with `maxProducts = 0` the run emits nothing and both loops
are inert on a saturated state. -/
theorem C2_witness :
    (scrape_search_results cfgW envW 0 2 (some urlW) (initCrawlState cfgW envW)).products.length ≤ 0 ∧
    process_links cfgW envW 0 [linkW] (initCrawlState cfgW envW) = initCrawlState cfgW envW ∧
    scrape_search_results cfgW envW 0 1 (some urlW) (initCrawlState cfgW envW) =
      initCrawlState cfgW envW := by
  refine ⟨(C2_max_products cfgW envW 0 2 (some urlW)).1,
    (C2_max_products cfgW envW 0 2 (some urlW)).2.1 [linkW] _ (by decide),
    (C2_max_products cfgW envW 0 2 (some urlW)).2.2 1 (some urlW) _ (by decide)⟩

/-- C3: within one run no two emitted records share a non-empty ASIN; the
seen-ASIN set is append-only at every step; and a link whose ASIN is already
seen is skipped with no fetch and no state change. -/
theorem C3_dedupe (cfg : Config) (env : Env) (maxP fuel : ℕ) (url : Option String) :
    (scrape_search_results cfg env maxP fuel url (initCrawlState cfg env)).products.Pairwise
      asinDistinct ∧
    (∀ (l : String) (cs : CrawlState), cs.seen ⊆ (link_step cfg env l cs).cs.seen) ∧
    (∀ (fuel2 : ℕ) (url2 : Option String) (cs : CrawlState),
      cs.seen ⊆ (scrape_search_results cfg env maxP fuel2 url2 cs).seen) ∧
    (∀ (l : String) (cs : CrawlState), asinSeen (extract_asin l) cs.seen = true →
      link_step cfg env l cs = ⟨cs, false, false⟩) := by
  refine ⟨?_, ?_, ?_, ?_⟩
  · have h := scrape_preserve cfg env maxP GoodCS
      (fun l cs hg => link_step_good cfg env l cs hg)
      (fun cs st2 hg => hg)
      fuel url (initCrawlState cfg env)
      ⟨fun p2 hp2 => absurd hp2 (List.not_mem_nil p2), List.Pairwise.nil⟩
    exact h.2
  · exact fun l cs => link_step_seen_mono cfg env l cs
  · intro fuel2 url2 cs
    have h := scrape_preserve cfg env maxP (fun cs2 => cs.seen ⊆ cs2.seen)
      (fun l cs2 hg => Set.Subset.trans hg (link_step_seen_mono cfg env l cs2))
      (fun cs2 st2 hg => hg)
      fuel2 url2 cs (fun x hx => hx)
    exact h
  · intro l cs h
    rcases link_step_cases cfg env l cs with ⟨-, heq⟩ | ⟨hfalse, -⟩
    · exact heq
    · rw [h] at hfalse
      cases hfalse

/-- C3 witness: the link whose ASIN is already recorded is skipped without a
fetch, and the seen set never shrinks. -/
theorem C3_witness :
    runW.products.Pairwise asinDistinct ∧
    link_step cfgW envW linkW csSeen = ⟨csSeen, false, false⟩ ∧
    csSeen.seen ⊆ (link_step cfgW envW linkW csSeen).cs.seen := by
  refine ⟨(C3_dedupe cfgW envW 20000 2 (some urlW)).1,
    (C3_dedupe cfgW envW 20000 2 (some urlW)).2.2.2 linkW csSeen (by decide),
    (C3_dedupe cfgW envW 20000 2 (some urlW)).2.1 linkW csSeen⟩

/-- C4: a fetch attempt answered 503 while rotation is enabled and a proxy is
configured performs an Emergency rotation in the state handed to the next
attempt: the session id is replaced, `request_count` resets to 0, a fresh
`rotation_threshold` is drawn, and the emergency counter is incremented. -/
theorem C4_emergency (cfg : Config) (env : Env) (st : FetchState) (b : Doc)
    (hproxy : cfg.proxyConfigured = true) (hrot : cfg.sessionRotationEnabled = true)
    (h503 : env.resp st.totalRequests = Resp.status 503 b)
    (hid : idCount st.sessionId ≤ st.sessionCount) :
    (request_attempt cfg env st).1 = AttemptRes.failed ∧
    (request_attempt cfg env st).2.1.sessionId ≠ st.sessionId ∧
    (request_attempt cfg env st).2.1.curRequests = 0 ∧
    (request_attempt cfg env st).2.1.rotLimit =
      some (env.randInt st.drawIdx cfg.sessionMinRequests cfg.sessionMaxRequests) ∧
    (request_attempt cfg env st).2.1.emergencyRotations = st.emergencyRotations + 1 := by
  rw [request_attempt_503 cfg env st b hproxy hrot h503]
  exact ⟨rfl, emergency_id_ne st.sessionId (env.timeAt st.drawIdx) st.sessionCount hid,
    rfl, rfl, rfl⟩

/-- C4 witness: a concrete 503 under proxy + rotation yields a replaced
session id, zero request count, the fresh draw 3, and emergency counter 1. -/
theorem C4_witness :
    (request_attempt cfg503 env503 st503).1 = AttemptRes.failed ∧
    (request_attempt cfg503 env503 st503).2.1.sessionId ≠ st503.sessionId ∧
    (request_attempt cfg503 env503 st503).2.1.curRequests = 0 ∧
    (request_attempt cfg503 env503 st503).2.1.rotLimit = some 3 ∧
    (request_attempt cfg503 env503 st503).2.1.emergencyRotations = 1 := by
  have h := C4_emergency cfg503 env503 st503 emptyDoc rfl rfl rfl (by decide)
  exact ⟨h.1, h.2.1, h.2.2.1, h.2.2.2.1, h.2.2.2.2⟩

/-- C5: with `sessionRotationEnabled = false` the rotation check always
returns false, and a single session id persists through any fetch call and
any whole run — whatever the request count and whatever the responses,
503s included. -/
theorem C5_single_session (cfg : Config) (env : Env) (st : FetchState)
    (h : cfg.sessionRotationEnabled = false) :
    rotate_session_if_needed cfg env st = (false, st) ∧
    (∀ (url : String) (n : ℕ), (make_request cfg env url n st).2.1.sessionId = st.sessionId) ∧
    (∀ (url : String) (n : ℕ),
      ∀ info ∈ (make_request cfg env url n st).2.2, info.sid = st.sessionId) ∧
    (∀ (maxP fuel : ℕ) (url : Option String) (cs : CrawlState),
      (scrape_search_results cfg env maxP fuel url cs).fetch.sessionId = cs.fetch.sessionId) := by
  refine ⟨rotate_disabled cfg env st h,
    fun url n => make_request_sessionId_disabled cfg env url n st h,
    fun url n => make_request_trace_sid_disabled cfg env url n st h,
    fun maxP fuel url cs => scrape_sessionId_disabled cfg env maxP h fuel url cs⟩

/-- C5 witness: rotation disabled against an all-503 network — the rotation
check returns false and the session id survives a fetch call and a run. -/
theorem C5_witness :
    rotate_session_if_needed cfgW env503 (initFetchState cfgW env503) =
      (false, initFetchState cfgW env503) ∧
    (make_request cfgW env503 urlW 3 (initFetchState cfgW env503)).2.1.sessionId =
      (initFetchState cfgW env503).sessionId ∧
    (scrape_search_results cfgW env503 20000 2 (some urlW) (initCrawlState cfgW env503)).fetch.sessionId =
      (initCrawlState cfgW env503).fetch.sessionId := by
  have h := C5_single_session cfgW env503 (initFetchState cfgW env503) rfl
  exact ⟨h.1, h.2.1 urlW 3, h.2.2.2 20000 2 (some urlW) (initCrawlState cfgW env503)⟩

/-- C6 counterexample: the claim that the Rotation Controller is consulted
before every individual attempt is false — in a call whose first attempt
fails with a 500, the second attempt is issued while a scheduled rotation is
due, with no rotation in between. -/
theorem C6_counterexample : ¬ rotationConsultedBeforeEveryAttempt := by
  intro h
  have h2 := h cfgC6 envC6 urlW 2 stC6 rfl (fun i lo hi => by show 0 < 5; decide)
    (fun L hL => by
      have h3 : stC6.rotLimit = some 1 := rfl
      rw [h3] at hL
      have h4 := Option.some.inj hL
      omega)
  have h3 := h2 infoC6 (by decide)
  have h4 : infoC6.dueAtIssue = true := rfl
  rw [h3] at h4
  cases h4

/-- C6 (amended): the Rotation Controller is consulted once per fetch call,
before the first attempt — a scheduled rotation is performed at that point
if `request_count >= rotation_threshold`, before any request is issued — and
the retry loop itself never performs a scheduled rotation (absent 503s it
leaves session id, counter and threshold untouched even when due). -/
theorem C6_amended (cfg : Config) (env : Env) (url : String) (n : ℕ) (st : FetchState) :
    make_request cfg env url n st =
      make_request_loop cfg env n (rotate_session_if_needed cfg env st).2 ∧
    (cfg.sessionRotationEnabled = true → geLimit st.curRequests st.rotLimit = true →
      (rotate_session_if_needed cfg env st).2.curRequests = 0 ∧
      (rotate_session_if_needed cfg env st).2.sessionCount = st.sessionCount + 1 ∧
      (rotate_session_if_needed cfg env st).2.rotLimit =
        some (env.randInt st.drawIdx cfg.sessionMinRequests cfg.sessionMaxRequests)) ∧
    (geLimit st.curRequests st.rotLimit = false →
      (rotate_session_if_needed cfg env st).2 = st) ∧
    ((∀ (k : ℕ) (b : Doc), env.resp k ≠ Resp.status 503 b) →
      (make_request_loop cfg env n st).2.1.sessionId = st.sessionId ∧
      (make_request_loop cfg env n st).2.1.sessionCount = st.sessionCount ∧
      (make_request_loop cfg env n st).2.1.rotLimit = st.rotLimit) := by
  refine ⟨rfl, ?_, ?_, ?_⟩
  · intro hen hdue
    rw [rotate_spec_due cfg env st hen hdue]
    exact ⟨rfl, rfl, rfl⟩
  · intro hdue
    rw [rotate_spec_not_due cfg env st hdue]
  · intro hno
    exact make_request_loop_no503 cfg env hno n st

/-- C6 witness: on a due state the pre-loop consultation rotates (resetting
the count and bumping the session counter), and a 503-free retry loop leaves
the session untouched. -/
theorem C6_witness :
    make_request cfgC6 envC7 urlW 2 stDue =
      make_request_loop cfgC6 envC7 2 (rotate_session_if_needed cfgC6 envC7 stDue).2 ∧
    (rotate_session_if_needed cfgC6 envC7 stDue).2.curRequests = 0 ∧
    (rotate_session_if_needed cfgC6 envC7 stDue).2.sessionCount = stDue.sessionCount + 1 ∧
    (make_request_loop cfgC6 envC7 2 stDue).2.1.sessionId = stDue.sessionId := by
  have h := C6_amended cfgC6 envC7 urlW 2 stDue
  have h2 := h.2.1 rfl (by decide)
  exact ⟨h.1, h2.1, h2.2.1, (h.2.2.2 (fun k b => by simp [envC7])).1⟩

/-- C7 counterexample: the claim that a fresh user agent is selected from the
pool for every individual attempt is false — with per-attempt draws pointing
at pool slot 1, the attempt still sends the user agent fixed at session
setup (pool slot 0). -/
theorem C7_counterexample : ¬ uaSelectedPerAttempt := by
  intro h
  have h2 := h cfgW envC7 urlW 1 (initFetchState cfgW envC7) 0 (by decide)
  exact absurd h2 (by decide)

/-- C7 (amended): every attempt of a fetch call sends the user agent selected
once at session setup (a random pool element fixed in the session headers,
not re-drawn per attempt); when proxying is enabled the proxy URL is resolved
from the session id current at that attempt, so attempts under the same
session id use the same proxy endpoint. -/
theorem C7_identity (cfg : Config) (env : Env) (url : String) (n : ℕ) (st : FetchState) :
    (∀ info ∈ (make_request cfg env url n st).2.2,
      info.ua = st.headerUA ∧
      info.proxy = (if cfg.proxyConfigured = true then some (env.proxyUrl info.sid) else none)) ∧
    (∀ info1 ∈ (make_request cfg env url n st).2.2,
      ∀ info2 ∈ (make_request cfg env url n st).2.2,
        info1.sid = info2.sid → info1.proxy = info2.proxy) ∧
    (initFetchState cfg env).headerUA =
      List.getD userAgents (env.uaPick 0 % userAgents.length) "" := by
  refine ⟨make_request_trace_identity cfg env url n st, ?_, rfl⟩
  intro i1 h1 i2 h2 hsid
  rcases make_request_trace_identity cfg env url n st i1 h1 with ⟨-, hp1⟩
  rcases make_request_trace_identity cfg env url n st i2 h2 with ⟨-, hp2⟩
  rw [hp1, hp2, hsid]

/-- C7 witness: the attempt in a proxied call sends the setup-time user agent
and the proxy URL resolved for its session id. -/
theorem C7_witness :
    infoP.ua = (initFetchState cfgProxy env503).headerUA ∧
    infoP.proxy = some (env503.proxyUrl infoP.sid) := by
  have h := (C7_identity cfgProxy env503 urlW 1 (initFetchState cfgProxy env503)).1
    infoP (by decide)
  refine ⟨h.1, ?_⟩
  rw [h.2]
  rfl

/-- C8: a fetch call returns a document only if some response was an HTTP
200 carrying it; when no response in the call's window is a 200 (other
statuses or transport errors throughout), all `retries` attempts are used and
the call returns no document. -/
theorem C8_fetch_outcome (cfg : Config) (env : Env) (url : String) (retries : ℕ)
    (st : FetchState) :
    (∀ d : Doc, (make_request cfg env url retries st).1 = some d →
      ∃ k, env.resp k = Resp.status 200 d) ∧
    ((∀ k, k < retries → ∀ d : Doc, env.resp (st.totalRequests + k) ≠ Resp.status 200 d) →
      (make_request cfg env url retries st).1 = none ∧
      (make_request cfg env url retries st).2.1.totalRequests = st.totalRequests + retries) := by
  constructor
  · intro d h
    exact make_request_loop_some_200 cfg env retries _ d h
  · intro h
    unfold make_request
    have hrot : (rotate_session_if_needed cfg env st).2.totalRequests = st.totalRequests :=
      rotate_totalRequests cfg env st
    have h2 := make_request_loop_no200 cfg env retries ((rotate_session_if_needed cfg env st).2)
      (by rw [hrot]; exact h)
    refine ⟨h2.1, ?_⟩
    rw [h2.2, hrot]

/-- C8 witness: against a network that always raises, the call makes exactly
3 attempts and returns no document. -/
theorem C8_witness :
    (make_request cfgW envC7 urlW 3 (initFetchState cfgW envC7)).1 = none ∧
    (make_request cfgW envC7 urlW 3 (initFetchState cfgW envC7)).2.1.totalRequests = 3 := by
  have h := (C8_fetch_outcome cfgW envC7 urlW 3 (initFetchState cfgW envC7)).2
    (fun k hk d => by simp [envC7])
  refine ⟨h.1, ?_⟩
  rw [h.2]
  rfl

/-- C9: the price filter is applied only to truthy parsed numbers — an
absent price, a zero price or a raw-text price is never dropped; a record is
dropped exactly when its price is a parsed number above 100, and a record
passing the filter is returned (emitted) unchanged. -/
theorem C9_filter_only_numeric (doc : Doc) (u : String) (s : String) :
    priceFilterDrops none = false ∧
    priceFilterDrops (some (PVal.text s)) = false ∧
    priceFilterDrops (some (PVal.num 0)) = false ∧
    (∀ p : Option PVal, priceFilterDrops p = true ↔ ∃ q : ℚ, p = some (PVal.num q) ∧ 100 < q) ∧
    (priceFilterDrops (extract_record doc u).price = false →
      extract_product_data doc u = some (extract_record doc u)) := by
  refine ⟨rfl, ?_, ?_, priceFilterDrops_iff, ?_⟩
  · simp [priceFilterDrops, isNumericPrice]
  · simp [priceFilterDrops, pyTruthyPrice]
  · intro h
    simp only [extract_product_data]
    rw [h]
    simp

/-- C9 witness: a $0 product page passes the filter and is emitted with its
zero price. -/
theorem C9_witness :
    extract_product_data docZero linkW = some (extract_record docZero linkW) ∧
    (extract_record docZero linkW).price = some (PVal.num 0) := by
  refine ⟨(C9_filter_only_numeric docZero linkW ("")).2.2.2.2 (by decide), by decide⟩

/-- C10: an ASIN is recorded only at the moment a record is emitted — a
failed fetch or a filtered record leaves the seen set (and the emitted list)
unchanged — and any link whose ASIN is not yet seen is fetched. -/
theorem C10_asin_recorded_only_on_emit (cfg : Config) (env : Env) (l : String)
    (cs : CrawlState) :
    ((link_step cfg env l cs).emitted = false →
      (link_step cfg env l cs).cs.seen = cs.seen ∧
      (link_step cfg env l cs).cs.products = cs.products) ∧
    (asinSeen (extract_asin l) cs.seen = false → (link_step cfg env l cs).fetched = true) := by
  constructor
  · intro hem
    rcases link_step_cases cfg env l cs with ⟨-, heq⟩ | ⟨-, -, ⟨-, hp, hs⟩ | ⟨hem2, -⟩⟩
    · rw [heq]
      exact ⟨rfl, rfl⟩
    · exact ⟨hs, hp⟩
    · rw [hem2] at hem
      cases hem
  · intro hns
    rcases link_step_cases cfg env l cs with ⟨htrue, -⟩ | ⟨-, hf, -⟩
    · rw [hns] at htrue
      cases htrue
    · exact hf

/-- C10 witness: a link whose fetch fails leaves the seen set unchanged even
though it was fetched (its unseen ASIN did not block the fetch). -/
theorem C10_witness :
    (link_step cfgW envC7 linkW (initCrawlState cfgW envC7)).cs.seen =
      (initCrawlState cfgW envC7).seen ∧
    (link_step cfgW envC7 linkW (initCrawlState cfgW envC7)).fetched = true := by
  have h := C10_asin_recorded_only_on_emit cfgW envC7 linkW (initCrawlState cfgW envC7)
  exact ⟨(h.1 (by decide)).1, h.2 (by decide)⟩
